import Mathlib

/-!
Shallow embedding of the Journey-Weaver tour ingestion pipeline and
navigation state machine, translated from the TypeScript sources
(src/utils/dataTransform.ts, src/utils/quizSubmission.ts,
src/utils/urlParams.ts and the application module in src/unnamed/part_000).
-/

set_option maxHeartbeats 1000000

namespace JourneyWeaver

/-- A JavaScript runtime value, as produced by JSON parsing and passed
between the untyped ingestion functions.  Finite numbers are rationals;
the non-finite doubles are collapsed to the two constructors that the
code can distinguish (`isFinite` tests and truthiness: NaN is falsy, the
infinities are truthy). `date` stands for a Date instance (only inspected
by `normalizeKeys` via instanceof). -/
inductive JsVal where
  | null
  | undefined
  | bool (b : Bool)
  | num (q : ℚ)
  | nan
  | inf
  | str (s : String)
  | date
  | arr (elems : List JsVal)
  | obj (fields : List (String × JsVal))
deriving Repr

namespace JsVal

/-- JS truthiness of a value. -/
def truthy : JsVal → Bool
  | .null => false
  | .undefined => false
  | .bool b => b
  | .num q => q != 0
  | .nan => false
  | .inf => true
  | .str s => s ≠ ""
  | .date => true
  | .arr _ => true
  | .obj _ => true

/-- JS strict equality on the values this program compares with ===.
Objects, arrays and dates compare by reference in JS; every such value in
this program is a fresh product of JSON parsing, so two of them occurring
at the two sides of a comparison are never the same reference and the
comparison is false. -/
def jsStrictEq : JsVal → JsVal → Bool
  | .null, .null => true
  | .undefined, .undefined => true
  | .bool a, .bool b => a == b
  | .num a, .num b => a == b
  | .inf, .inf => true
  | .str a, .str b => a == b
  | _, _ => false

/-- Property read `v[k]` on a value known not to be null/undefined
(primitive property access is boxed and yields undefined). -/
def getField (v : JsVal) (k : String) : JsVal :=
  match v with
  | .obj fields =>
    match fields.lookup k with
    | some x => x
    | none => .undefined
  | _ => .undefined

/-- Property read `v[k]` where v may be null or undefined, in which case
JS throws a TypeError. -/
def getFieldE (v : JsVal) (k : String) : Except Unit JsVal :=
  match v with
  | .null => .error ()
  | .undefined => .error ()
  | v => .ok (getField v k)

/-- typeof v === 'object' && v !== null (true for plain objects, arrays
and dates). -/
def isObjectLike : JsVal → Bool
  | .arr _ => true
  | .obj _ => true
  | .date => true
  | _ => false

/-- Array.isArray -/
def isArr : JsVal → Bool
  | .arr _ => true
  | _ => false

/-- The JS short-circuit `a || b`. -/
def jsOr (a b : JsVal) : JsVal :=
  if a.truthy then a else b

/-- typeof v === 'number' (NaN and the infinities are numbers). -/
def typeofNumber : JsVal → Bool
  | .num _ => true
  | .nan => true
  | .inf => true
  | _ => false

/-- The `.length` property as the code reads it: array length, string
length, and undefined (none) for everything else. -/
def lengthProp : JsVal → Option ℕ
  | .arr xs => some xs.length
  | .str s => some s.length
  | _ => none

/-- `v.length > 0` as evaluated in JS (`undefined > 0` is false). -/
def lengthPos (v : JsVal) : Bool :=
  match v.lengthProp with
  | some n => 0 < n
  | none => false

end JsVal

/-! ### JS string primitives

List-based models of the JS string methods the code calls (toLowerCase,
toUpperCase, trim, startsWith, endsWith), kept structurally recursive so
they evaluate inside proofs. -/

/-- The whitespace JS trim removes (the forms relevant to this input
domain). -/
def jsWhitespace (c : Char) : Bool :=
  c = ' ' ∨ c = '\n' ∨ c = '\t' ∨ c = '\r'

/-- String.prototype.trim -/
def jsTrim (s : String) : String :=
  String.mk (((s.toList.dropWhile jsWhitespace).reverse.dropWhile jsWhitespace).reverse)

/-- String.prototype.toLowerCase -/
def jsToLowerCase (s : String) : String :=
  String.mk (s.toList.map Char.toLower)

/-- String.prototype.toUpperCase -/
def jsToUpperCase (s : String) : String :=
  String.mk (s.toList.map Char.toUpper)

/-- String.prototype.startsWith -/
def jsStartsWith (s pre : String) : Bool :=
  pre.toList.isPrefixOf s.toList

/-- String.prototype.endsWith -/
def jsEndsWith (s suffix : String) : Bool :=
  suffix.toList.reverse.isPrefixOf s.toList.reverse

/-- Parse a list of decimal digits into a natural number; none when the
list is empty or holds a non-digit. -/
def digitsToNat : List Char → Option ℕ
  | [] => none
  | cs =>
    cs.foldl (fun acc c =>
      match acc with
      | none => none
      | some n => if c.isDigit then some (n * 10 + (c.toNat - '0'.toNat)) else none)
      (some 0)

/-- The numeric value of the string forms `digits`, `digits.digits`,
`digits.` and `.digits`, with an optional sign, as accepted by the JS
Number() conversion.  Exponent and hex forms are not modelled: no
property verified here feeds them in.  Returns none for strings whose JS
conversion is NaN or infinite. -/
def strToNumber (s : String) : Option ℚ :=
  let t := jsTrim s
  if t = "" then some 0
  else
    let (sign, body) :=
      match t.toList with
      | '-' :: rest => ((-1 : ℚ), rest)
      | '+' :: rest => ((1 : ℚ), rest)
      | cs => ((1 : ℚ), cs)
    let intPart := body.takeWhile (fun c => c ≠ '.')
    let rest := body.drop intPart.length
    match rest with
    | [] =>
      match digitsToNat intPart with
      | some n => some (sign * n)
      | none => none
    | '.' :: fracPart =>
      if intPart = [] ∧ fracPart = [] then none
      else
        let ip : Option ℕ := if intPart = [] then some 0 else digitsToNat intPart
        let fp : Option ℕ := if fracPart = [] then some 0 else digitsToNat fracPart
        match ip, fp with
        | some n, some f => some (sign * (n + (f : ℚ) / ((10 : ℚ) ^ fracPart.length)))
        | _, _ => none
    | _ => none

/-- The JS Number() conversion, returning some q exactly when the result
is a finite number.  The array cases model the ToPrimitive detour for the
shapes that occur in coordinate data; Date values never occur in the
JSON-derived inputs of this pipeline. -/
def jsToNumber : JsVal → Option ℚ
  | .num q => some q
  | .nan => none
  | .inf => none
  | .null => some 0
  | .undefined => none
  | .bool b => some (if b then 1 else 0)
  | .str s => strToNumber s
  | .date => none
  | .arr [] => some 0
  | .arr [x] => jsToNumber x
  | .arr (_ :: _ :: _) => none
  | .obj _ => none

/-- The JS String() conversion.  Objects/arrays/dates are approximated by
a fixed tag: the verified properties only ever convert strings. -/
def jsToString : JsVal → String
  | .str s => s
  | .bool b => if b then "true" else "false"
  | .null => "null"
  | .undefined => "undefined"
  | .nan => "NaN"
  | .inf => "Infinity"
  | .num q => if q.den = 1 then toString q.num else toString q
  | .date => "[object Date]"
  | .arr _ => "[object Array]"
  | .obj _ => "[object Object]"

/-! ### A model of JSON.parse

Only `parseAndValidateQuiz` applies it, to quiz fields that arrive as
strings; none of the verified properties feeds a string quiz in, so the
parser below covers the JSON core (null/true/false, decimal numbers,
strings without escape sequences, arrays, objects). -/

/-- Skip JSON whitespace. -/
def skipWs : List Char → List Char
  | c :: rest => if c = ' ' ∨ c = '\n' ∨ c = '\t' ∨ c = '\r' then skipWs rest else c :: rest
  | [] => []

mutual

/-- Parse one JSON value from the character stream; fuel bounds recursion
depth. -/
def parseVal (fuel : ℕ) (cs : List Char) : Option (JsVal × List Char) :=
  match fuel with
  | 0 => none
  | fuel + 1 =>
    match skipWs cs with
    | 'n' :: 'u' :: 'l' :: 'l' :: rest => some (.null, rest)
    | 't' :: 'r' :: 'u' :: 'e' :: rest => some (.bool true, rest)
    | 'f' :: 'a' :: 'l' :: 's' :: 'e' :: rest => some (.bool false, rest)
    | '"' :: rest =>
      let body := rest.takeWhile (fun c => c ≠ '"' ∧ c ≠ '\\')
      (match rest.drop body.length with
       | '"' :: rest2 => some (.str (String.mk body), rest2)
       | _ => none)
    | '[' :: rest =>
      (match skipWs rest with
       | ']' :: rest2 => some (.arr [], rest2)
       | _ => match parseElems fuel rest with
              | some (xs, rest2) => some (.arr xs, rest2)
              | none => none)
    | '{' :: rest =>
      (match skipWs rest with
       | '}' :: rest2 => some (.obj [], rest2)
       | _ => match parseMembers fuel rest with
              | some (fs, rest2) => some (.obj fs, rest2)
              | none => none)
    | cs' =>
      let numBody := cs'.takeWhile (fun c => c.isDigit ∨ c = '-' ∨ c = '+' ∨ c = '.')
      if numBody = [] then none
      else match strToNumber (String.mk numBody) with
           | some q => some (.num q, cs'.drop numBody.length)
           | none => none

/-- Parse a comma-separated list of array elements followed by a closing
bracket. -/
def parseElems (fuel : ℕ) (cs : List Char) : Option (List JsVal × List Char) :=
  match fuel with
  | 0 => none
  | fuel + 1 =>
    match parseVal fuel cs with
    | none => none
    | some (v, rest) =>
      match skipWs rest with
      | ',' :: rest2 =>
        (match parseElems fuel rest2 with
         | some (xs, rest3) => some (v :: xs, rest3)
         | none => none)
      | ']' :: rest2 => some ([v], rest2)
      | _ => none

/-- Parse a comma-separated list of object members followed by a closing
brace. -/
def parseMembers (fuel : ℕ) (cs : List Char) : Option (List (String × JsVal) × List Char) :=
  match fuel with
  | 0 => none
  | fuel + 1 =>
    match skipWs cs with
    | '"' :: rest =>
      let key := rest.takeWhile (fun c => c ≠ '"' ∧ c ≠ '\\')
      (match rest.drop key.length with
       | '"' :: rest2 =>
         (match skipWs rest2 with
          | ':' :: rest3 =>
            (match parseVal fuel rest3 with
             | none => none
             | some (v, rest4) =>
               match skipWs rest4 with
               | ',' :: rest5 =>
                 (match parseMembers fuel rest5 with
                  | some (fs, rest6) => some ((String.mk key, v) :: fs, rest6)
                  | none => none)
               | '}' :: rest5 => some ([(String.mk key, v)], rest5)
               | _ => none)
          | _ => none)
       | _ => none)
    | _ => none

end

/-- JSON.parse: none models the thrown SyntaxError. -/
def jsonParse (s : String) : Option JsVal :=
  match parseVal (s.length + 1) s.toList with
  | some (v, rest) => if skipWs rest = [] then some v else none
  | none => none

/-! ### Key Normalizer (normalizeKeys, part_000 lines 453-462) -/

/-- key.charAt(0).toLowerCase() + key.slice(1) -/
def lowerFirst (k : String) : String :=
  match k.toList with
  | [] => ""
  | c :: rest => String.mk (c.toLower :: rest)

/-- JS property assignment acc[k] = v on a plain object: overwrite in
place if the key exists, else append. -/
def setKey : List (String × JsVal) → String → JsVal → List (String × JsVal)
  | [], k, v => [(k, v)]
  | (k', v') :: rest, k, v =>
    if k' = k then (k', v) :: rest else (k', v') :: setKey rest k v

mutual

/-- normalizeKeys: recursively lower-case the first character of every
plain-object key; Date instances and non-objects pass through. -/
def normalizeKeys : JsVal → JsVal
  | .arr xs => .arr (normalizeKeysList xs)
  | .obj fs => .obj (normalizeKeysFields fs [])
  | v => v

/-- The Object.keys(...).reduce of normalizeKeys, with its accumulator. -/
def normalizeKeysFields : List (String × JsVal) → List (String × JsVal) → List (String × JsVal)
  | [], acc => acc
  | (k, v) :: rest, acc => normalizeKeysFields rest (setKey acc (lowerFirst k) (normalizeKeys v))

/-- obj.map(normalizeKeys) on an array. -/
def normalizeKeysList : List JsVal → List JsVal
  | [] => []
  | v :: rest => normalizeKeys v :: normalizeKeysList rest

end

/-! ### Legacy quiz validation (part_000 lines 436-496) -/

/-- The per-option check inside isValidQuizQuestionArray. -/
def isValidQuizOption (o : JsVal) : Bool :=
  o.isObjectLike &&
  (match o.getField "text" with | .str _ => true | _ => false) &&
  (match o.getField "isCorrect" with | .bool _ => true | _ => false)

/-- The per-question check inside isValidQuizQuestionArray. -/
def isValidQuizQuestion (q : JsVal) : Bool :=
  q.isObjectLike &&
  (match q.getField "question" with
   | .str s => jsTrim s ≠ ""
   | _ => false) &&
  ((q.getField "type").jsStrictEq (.str "multiple-choice") ||
   (q.getField "type").jsStrictEq (.str "true-false")) &&
  (match q.getField "options" with
   | .arr opts => opts.all isValidQuizOption
   | _ => false)

/-- isValidQuizQuestionArray (part_000 lines 436-451). -/
def isValidQuizQuestionArray (data : JsVal) : Bool :=
  match data with
  | .arr qs => qs.all isValidQuizQuestion
  | _ => false

/-- The length of a normalized quiz array, for the `.length > 0` check. -/
def arrLength : JsVal → ℕ
  | .arr xs => xs.length
  | _ => 0

/-- parseAndValidateQuiz (part_000 lines 464-496): the legacy-format quiz
coercer.  A string payload is JSON-parsed when it is bracket-delimited;
the parsed (or direct) value is key-normalized and structurally
validated; every failure yields undefined (none). -/
def parseAndValidateQuiz (quizData : JsVal) : Option JsVal :=
  if !quizData.truthy then none
  else
    let parsed? : Option JsVal :=
      match quizData with
      | .str s =>
        if jsStartsWith (jsTrim s) "[" && jsEndsWith (jsTrim s) "]" then jsonParse s
        else none
      | v => some v
    match parsed? with
    | none => none
    | some parsedQuiz =>
      let normalizedQuiz := normalizeKeys parsedQuiz
      if isValidQuizQuestionArray normalizedQuiz && 0 < arrLength normalizedQuiz then
        some normalizedQuiz
      else none

/-! ### Upload quiz transformation (transformUploadedQuiz, part_000 lines 499-539) -/

/-- Build the canonical question object the transformers construct. -/
def mkQuestionObj (questionText : JsVal) (ty : String) (options : List JsVal) : JsVal :=
  .obj [("question", questionText), ("type", .str ty), ("options", .arr options)]

/-- Build a {text, isCorrect} option object. -/
def mkOptionObj (text : JsVal) (isCorrect : Bool) : JsVal :=
  .obj [("text", text), ("isCorrect", .bool isCorrect)]

/-- The per-question body of transformUploadedQuiz; none models the
`return null` drops. -/
def transformUploadedQuestion (q : JsVal) : Option JsVal :=
  if !q.truthy then none
  else if (match q.getField "text" with | .str _ => true | _ => false) = false then none
  else if !(q.getField "type").truthy then none
  else if (match q.getField "answer" with | .undefined => true | _ => false) then none
  else
    let questionType := jsToLowerCase (jsToString (q.getField "type"))
    let answer := jsTrim (jsToString (q.getField "answer"))
    if questionType = "multiple_choice" then
      match q.getField "options" with
      | .arr opts =>
        let options := opts.map (fun opt =>
          mkOptionObj (.str (jsTrim (jsToString opt))) (jsTrim (jsToString opt) = answer))
        some (mkQuestionObj (q.getField "text") "multiple-choice" options)
      | _ => none
    else if questionType = "true_false" then
      let answerBool := jsToLowerCase answer = "true"
      some (mkQuestionObj (q.getField "text") "true-false"
        [mkOptionObj (.str "True") answerBool, mkOptionObj (.str "False") (!answerBool)])
    else none

/-- transformUploadedQuiz: maps the uploaded questions, drops the
unusable ones, and yields undefined when nothing survives. -/
def transformUploadedQuiz (questions : JsVal) : Option JsVal :=
  match questions with
  | .arr qs =>
    let transformed := qs.filterMap transformUploadedQuestion
    if 0 < transformed.length then some (.arr transformed) else none
  | _ => none

/-! ### Entity model

The runtime Landmark object.  Fields the coercers merely pass through
keep the JsVal type (the remote-artifact coercer copies them without
validation); `iconType` is always a literal string, and `quiz` is the
optional validated quiz array. -/

structure Landmark where
  id : JsVal
  name : JsVal
  title : JsVal
  description : JsVal
  aliases : Option (List JsVal) := none
  imageUrl : JsVal
  coords : JsVal
  iconType : String
  videoUrl : JsVal := .undefined
  audioUrl : JsVal := .undefined
  quiz : Option JsVal := none
  block_navigation : JsVal := .undefined
deriving Repr

/-! ### Remote-artifact coercer (dataTransform.ts) -/

/-- The JS Array.prototype.map with exception propagation: the leftmost
throw aborts the whole map. -/
def mapExcept (f : JsVal → Except Unit α) : List JsVal → Except Unit (List α)
  | [] => .ok []
  | x :: rest =>
    match f x with
    | .error e => .error e
    | .ok y =>
      match mapExcept f rest with
      | .error e => .error e
      | .ok ys => .ok (y :: ys)

/-- Index-passing variant of `mapExcept`, for the map callbacks that use
the position argument. -/
def mapIdxExcept (f : ℕ → JsVal → Except Unit α) (start : ℕ) :
    List JsVal → Except Unit (List α)
  | [] => .ok []
  | x :: rest =>
    match f start x with
    | .error e => .error e
    | .ok y =>
      match mapIdxExcept f (start + 1) rest with
      | .error e => .error e
      | .ok ys => .ok (y :: ys)

/-- transformQuestion (dataTransform.ts lines 28-56), at its runtime
(untyped) semantics: the input record is whatever JSON.parse produced.
`.error` models a thrown TypeError (answer without toLowerCase, options
that is truthy but not an array, a null record). -/
def transformQuestion (question : JsVal) : Except Unit (Option JsVal) :=
  match question.getFieldE "type" with
  | .error e => .error e
  | .ok ty =>
    if ty.jsStrictEq (.str "true_false") then
      match question.getField "answer" with
      | .str a =>
        let correctAnswer := jsToLowerCase a
        .ok (some (mkQuestionObj (question.getField "text") "true-false"
          [mkOptionObj (.str "True") (correctAnswer = "true"),
           mkOptionObj (.str "False") (correctAnswer = "false")]))
      | _ => .error ()
    else if ty.jsStrictEq (.str "multiple_choice") && (question.getField "options").truthy then
      match question.getField "options" with
      | .arr opts =>
        .ok (some (mkQuestionObj (question.getField "text") "multiple-choice"
          (opts.map (fun optionText =>
            mkOptionObj optionText (optionText.jsStrictEq (question.getField "answer"))))))
      | _ => .error ()
    else
      .ok none

/-- The quiz part of one builder location: location.questions is mapped
through transformQuestion and the nulls filtered; an absent/short list
leaves the quiz undefined. -/
def builderQuizOf (location : JsVal) : Except Unit (Option JsVal) :=
  match location.getFieldE "questions" with
  | .error e => .error e
  | .ok questions =>
    if questions.truthy && questions.lengthPos then
      match questions with
      | .arr qs =>
        match mapExcept transformQuestion qs with
        | .error e => .error e
        | .ok transformed =>
          let kept := transformed.filterMap id
          .ok (if 0 < kept.length then some (.arr kept) else none)
      | _ => .error ()
    else
      .ok none

/-- The per-record body of transformBuilderDataToLandmarks. -/
def builderCoerceRecord (index : ℕ) (location : JsVal) : Except Unit Landmark :=
  match builderQuizOf location with
  | .error e => .error e
  | .ok quiz =>
    .ok {
      id := .num (index + 1)
      name := location.getField "title"
      title := location.getField "title"
      description := location.getField "description"
      aliases := some [location.getField "country"]
      imageUrl := (location.getField "image").jsOr
        (.str "https://via.placeholder.com/800x600?text=No+Image")
      coords := location.getField "coordinates"
      iconType := "monument"
      videoUrl := location.getField "video"
      audioUrl := location.getField "audio"
      quiz := quiz
      block_navigation := location.getField "block_navigation" : Landmark }

/-- transformBuilderDataToLandmarks (dataTransform.ts lines 61-90) at its
runtime semantics: every input record is mapped to a Landmark with no
validation of name, title or coordinates. -/
def transformBuilderDataToLandmarks (builderData : List JsVal) : Except Unit (List Landmark) :=
  mapIdxExcept builderCoerceRecord 0 builderData

/-! ### Coordinate validation

The identical guard used by the dataset, persisted-overlay and upload
coercers: a 2-element array, neither entry null, both entries converting
to finite numbers. -/

def processCoords (rawCoords : JsVal) : Option (ℚ × ℚ) :=
  match rawCoords with
  | .arr [a, b] =>
    if (match a with | .null => false | _ => true) &&
       (match b with | .null => false | _ => true) then
      match jsToNumber a, jsToNumber b with
      | some lat, some lon => some (lat, lon)
      | _, _ => none
    else none
  | _ => none

/-- The `['monument','nature','water'].includes(...)` fallback. -/
def iconTypeOf (v : JsVal) : String :=
  match v with
  | .str s => if s = "monument" ∨ s = "nature" ∨ s = "water" then s else "monument"
  | _ => "monument"

/-! ### Dataset-API coercer (loadData, part_000 lines 605-646) -/

/-- One dataset row.  `.ok none` is the skip-with-warning path for bad
coordinates; `.error` models a thrown TypeError (a null row, or a
coordinate-valid row whose city is not a string, on which
`(item.city as string).toUpperCase()` throws). -/
def datasetCoerceRow (index : ℕ) (item : JsVal) : Except Unit (Option Landmark) :=
  match item.getFieldE "coordinates" with
  | .error e => .error e
  | .ok rawCoords =>
  match processCoords rawCoords with
  | none => .ok none
  | some (lat, lon) =>
    let quizData := (item.getField "quiz").jsOr
      ((item.getField "Quiz").jsOr (item.getField "questions"))
    let quiz := parseAndValidateQuiz quizData
    match item.getField "city" with
    | .str city =>
      .ok (some {
        id := .num (index + 1)
        name := .str city
        title := .str (jsToUpperCase city)
        description := item.getField "description"
        imageUrl := item.getField "image"
        coords := .arr [.num lat, .num lon]
        iconType := "monument"
        videoUrl := item.getField "video"
        audioUrl := item.getField "audio"
        quiz := quiz
        block_navigation := .bool (item.getField "block_navigation").truthy })
    | _ => .error ()

/-- The items.map(...).filter(...) over dataset rows; a throw in the map
aborts the whole batch. -/
def datasetCoerce (items : List JsVal) : Except Unit (List Landmark) :=
  match mapIdxExcept datasetCoerceRow 0 items with
  | .error e => .error e
  | .ok mapped => .ok (mapped.filterMap id)

/-! ### Persisted-overlay coercer (loadData, part_000 lines 669-703) -/

/-- One persisted custom landmark, re-validated defensively; `now` is the
Date.now() read when a fresh id must be minted. -/
def sanitizeCustomLandmark (now : ℕ) (item : JsVal) : Option Landmark :=
  if !item.isObjectLike then none
  else
    match processCoords (item.getField "coords") with
    | none => none
    | some (lat, lon) =>
      match item.getField "name" with
      | .str name =>
        if jsTrim name = "" then none
        else some {
          id := if (item.getField "id").typeofNumber then item.getField "id" else .num now
          name := .str name
          title := (item.getField "title").jsOr (.str (jsToUpperCase name))
          description := (item.getField "description").jsOr (.str "")
          imageUrl := (item.getField "imageUrl").jsOr
            (.str ("https://picsum.photos/seed/" ++
              jsToString ((item.getField "id").jsOr (.str name)) ++ "/1200/800"))
          coords := .arr [.num lat, .num lon]
          iconType := iconTypeOf (item.getField "iconType")
          videoUrl := (item.getField "videoUrl").jsOr .null
          audioUrl := (item.getField "audioUrl").jsOr .null
          quiz := parseAndValidateQuiz (item.getField "quiz")
          block_navigation := .bool (item.getField "block_navigation").truthy }
      | _ => none

/-! ### Upload coercer (handleFileChange, part_000 lines 874-933) -/

/-- One uploaded record; `now` is Date.now().  A total function: no code
path in the source throws once the record-level checks run. -/
def uploadCoerceRecord (now : ℕ) (index : ℕ) (item : JsVal) : Option Landmark :=
  if !item.isObjectLike then none
  else
    let nameVal := (item.getField "name").jsOr
      ((item.getField "city").jsOr (item.getField "title"))
    match nameVal with
    | .str name =>
      if jsTrim name = "" then none
      else
        let rawCoords := (item.getField "coords").jsOr (item.getField "coordinates")
        match processCoords rawCoords with
        | none => none
        | some (lat, lon) =>
          let quizNew :=
            if (item.getField "questions").truthy then
              transformUploadedQuiz (item.getField "questions")
            else none
          let quiz :=
            match quizNew with
            | some q => some q
            | none => parseAndValidateQuiz ((item.getField "quiz").jsOr (item.getField "Quiz"))
          some {
            id := if (item.getField "id").truthy && (item.getField "id").typeofNumber then
                    item.getField "id"
                  else .num (now + index)
            name := .str name
            title := (item.getField "title").jsOr (.str (jsToUpperCase name))
            description := (item.getField "description").jsOr (.str "")
            imageUrl := (item.getField "imageUrl").jsOr
              ((item.getField "image").jsOr
                (.str ("https://picsum.photos/seed/" ++ toString (now + index) ++ "/1200/800")))
            coords := .arr [.num lat, .num lon]
            iconType := iconTypeOf (item.getField "iconType")
            videoUrl := (item.getField "videoUrl").jsOr ((item.getField "video").jsOr .null)
            audioUrl := (item.getField "audioUrl").jsOr ((item.getField "audio").jsOr .null)
            quiz := quiz
            block_navigation := .bool (item.getField "block_navigation").truthy }
    | _ => none

/-! ### Tour loader (loadData, part_000 lines 557-717) -/

/-- Modelled from the spec: INTRO_LANDMARK lives in the constants module,
which is not under src/.  Per spec section 3, index 0 of every Tour is a
synthetic intro landmark with id 0, no quiz and no gating; the display
strings are unconstrained and chosen arbitrarily here. -/
def INTRO_LANDMARK : Landmark := {
  id := .num 0
  name := .str "Intro"
  title := .str "WELCOME"
  description := .str ""
  imageUrl := .str ""
  coords := .arr [.num 0, .num 0]
  iconType := "monument"
  videoUrl := .null
  audioUrl := .null
  quiz := none
  block_navigation := .bool false }

/-- The environment a single loadData run observes.  `remote` is the
parsed artifact_data when every step of the remote fetch chain succeeded
(params present, HTTP ok, artifact_data present and truthy, JSON.parse
ok), none on any failure; `dataset` is none when window.le_v2 is absent,
some none when readAll throws, some (some rows) on success; `overlay` is
the parsed localStorage 'locations' slot, none when absent or unparsable;
`now` is Date.now(). -/
structure LoadInputs where
  remote : Option JsVal
  dataset : Option (Option (List JsVal))
  overlay : Option JsVal
  now : ℕ

/-- The remote-artifact branch of loadData: the tour it installs before
returning early, when the parsed artifact data is a non-empty array and
the transformation does not throw. -/
def remoteTour (remote : Option JsVal) : Option (List Landmark) :=
  match remote with
  | some (.arr items) =>
    if 0 < items.length then
      match transformBuilderDataToLandmarks items with
      | .ok ls => some (INTRO_LANDMARK :: ls)
      | .error _ => none
    else none
  | _ => none

/-- The dataset-or-fallback base tour of loadData. -/
def baseTour (dataset : Option (Option (List JsVal))) (fallbackRest : List Landmark) :
    List Landmark :=
  match dataset with
  | some (some items) =>
    if 0 < items.length then
      match datasetCoerce items with
      | .ok ls => INTRO_LANDMARK :: ls
      | .error _ => INTRO_LANDMARK :: fallbackRest
    else INTRO_LANDMARK :: fallbackRest
  | _ => INTRO_LANDMARK :: fallbackRest

/-- loadData, parameterized by the built-in fallback tour's non-intro
entries (FALLBACK_LANDMARKS is in the constants module, not under src/;
modelled from the spec as intro followed by the hard-coded landmarks).
Returns the final landmarks list.  Note the remote-success branch
returns early, before the overlay is read. -/
def loadData (inp : LoadInputs) (fallbackRest : List Landmark) : List Landmark :=
  match remoteTour inp.remote with
  | some tour => tour
  | none =>
    let base := baseTour inp.dataset fallbackRest
    match inp.overlay with
    | some (.arr loadedCustom) =>
      base ++ loadedCustom.filterMap (sanitizeCustomLandmark inp.now)
    | _ => base

/-! ### Navigation state machine (part_000 lines 542-810) -/

/-- The navigation-relevant component state.  `quizGate` is some
(sidebarIndex, landmarks.length) captured by the onComplete closure while
the quiz modal is open; `pending` is the scheduled mid-transition timer
(target index, whether it also sets activeIndex, as handleSelectLandmark
does). -/
structure NavState where
  landmarks : List Landmark
  activeIndex : ℕ
  sidebarIndex : ℕ
  transitioning : Bool
  quizGate : Option (ℕ × ℕ)
  pending : Option (ℕ × Bool)
deriving Repr

/-- The gating test of handleNext: the current landmark is not the intro,
has a truthy non-empty quiz, and a truthy block_navigation. -/
def gated (l : Landmark) : Bool :=
  (!(l.id.jsStrictEq (.num 0))) &&
  (match l.quiz with
   | some v => v.truthy && v.lengthPos
   | none => false) &&
  l.block_navigation.truthy

/-- The shared transition() body: mark transitioning, move the map camera
(activeIndex) to the next index at once, and schedule the sidebar swap. -/
def startTransition (s : NavState) (base len : ℕ) : NavState :=
  let nextIndex := (base + 1) % len
  { s with transitioning := true, activeIndex := nextIndex, pending := some (nextIndex, false) }

/-- The intents the presentation layer can issue, plus the two timer
firings that finish a transition. -/
inductive NavIntent where
  | next
  | prev
  | jumpTo (id : JsVal)
  | completeQuiz
  | timerMid
  | timerEnd

/-- One step of the navigation machine: handleNext, handlePrev,
handleSelectLandmark, the quiz modal's onComplete, and the two
setTimeout bodies. -/
def navStep (s : NavState) : NavIntent → NavState
  | .next =>
    if s.transitioning || s.landmarks.length = 0 then s
    else
      match s.landmarks[s.sidebarIndex]? with
      | some cur =>
        if gated cur then { s with quizGate := some (s.sidebarIndex, s.landmarks.length) }
        else startTransition s s.sidebarIndex s.landmarks.length
      | none => startTransition s s.sidebarIndex s.landmarks.length
  | .prev =>
    if s.transitioning || s.landmarks.length = 0 then s
    else
      let len := s.landmarks.length
      let nextIndex := (s.sidebarIndex + len - 1) % len
      { s with transitioning := true, activeIndex := nextIndex, pending := some (nextIndex, false) }
  | .jumpTo targetId =>
    if s.transitioning then s
    else
      match s.landmarks.findIdx? (fun l => l.id.jsStrictEq targetId) with
      | some index =>
        if index = s.sidebarIndex then s
        else { s with transitioning := true, pending := some (index, true) }
      | none => s
  | .completeQuiz =>
    match s.quizGate with
    | some (base, len) => startTransition { s with quizGate := none } base len
    | none => s
  | .timerMid =>
    match s.pending with
    | some (target, alsoActive) =>
      { s with sidebarIndex := target,
               activeIndex := if alsoActive then target else s.activeIndex,
               pending := none }
    | none => s
  | .timerEnd => { s with transitioning := false }

/-! ### Upload handler (handleFileChange, part_000 lines 856-957) -/

/-- The JS .map(f).filter(nonNull) over an array, with the map callback
receiving the element index. -/
def filterMapIdx (f : ℕ → JsVal → Option Landmark) (start : ℕ) :
    List JsVal → List Landmark
  | [] => []
  | x :: rest =>
    match f start x with
    | some y => y :: filterMapIdx f (start + 1) rest
    | none => filterMapIdx f (start + 1) rest

/-- The alert text shown when every uploaded record is dropped. -/
def uploadRejectMessage : String :=
  "The uploaded JSON file contains no valid landmarks. Please ensure each landmark has a 'name', 'city', or 'title', and valid 'coordinates'."

/-- handleFileChange after the file has been read and JSON.parse
succeeded; `loadedData` is the parsed value, `now` is Date.now().
Returns the new state and the alert message, if one was raised.  A
non-array payload throws and is caught by the surrounding handler, which
alerts and leaves the state untouched. -/
def handleFileChange (loadedData : JsVal) (now : ℕ) (s : NavState) : NavState × Option String :=
  match loadedData with
  | .arr items =>
    let newLandmarks := filterMapIdx (uploadCoerceRecord now) 0 items
    if newLandmarks.length = 0 then (s, some uploadRejectMessage)
    else ({ s with landmarks := INTRO_LANDMARK :: newLandmarks,
                   activeIndex := 1, sidebarIndex := 1 }, none)
  | _ => (s, some "Could not load landmarks. Please check if the file is a valid JSON.")

/-! ### Custom-landmark append (handleSaveLandmark, part_000 lines 816-837) -/

/-- handleSaveLandmark: nothing happens without modal coordinates;
otherwise a landmark with id Date.now() and the modal's coordinates is
appended (the `data` argument models the Omit of id and coords: those two
fields of it are ignored and overwritten). -/
def handleSaveLandmark (now : ℕ) (modalCoords : Option (ℚ × ℚ)) (data : Landmark)
    (s : NavState) : NavState :=
  match modalCoords with
  | none => s
  | some (lat, lon) =>
    let newLandmark := { data with id := .num now, coords := .arr [.num lat, .num lon] }
    { s with landmarks := s.landmarks ++ [newLandmark] }

/-! ### Quiz result submission (quizSubmission.ts) -/

/-- The session parameters read from the query string. -/
structure URLParams where
  token : Option String
  artifactId : Option String
  baseUrl : Option String

/-- Truthiness of a nullable string (null and '' are falsy). -/
def optStrTruthy : Option String → Bool
  | some s => s ≠ ""
  | none => false

/-- JS parseInt on a decimal string; none is NaN. -/
def jsParseInt (s : String) : Option ℤ :=
  let cs := (jsTrim s).toList
  let (sign, body) :=
    match cs with
    | '-' :: rest => ((-1 : ℤ), rest)
    | '+' :: rest => ((1 : ℤ), rest)
    | cs => ((1 : ℤ), cs)
  match digitsToNat (body.takeWhile Char.isDigit) with
  | some n => some (sign * n)
  | none => none

/-- The POST request submitQuizResults issues: URL, bearer token and the
three body fields (`content` is the JSON-encoded submission summary the
caller computed). -/
structure SubmitRequest where
  url : String
  bearerToken : String
  artifacts : Option ℤ
  content : String
  status : String
deriving Repr, DecidableEq

/-- What the network did with the request. -/
inductive FetchOutcome where
  | networkError
  | httpStatus (code : ℕ)

/-- submitQuizResults (quizSubmission.ts lines 22-61): returns the
success flag and the request it issued (none when the session parameters
were missing and no request was made).  A non-ok status throws inside the
try block and is caught, yielding false. -/
def submitQuizResults (p : URLParams) (content : String) (outcome : FetchOutcome) :
    Bool × Option SubmitRequest :=
  if !(optStrTruthy p.token && optStrTruthy p.artifactId && optStrTruthy p.baseUrl) then
    (false, none)
  else
    let req : SubmitRequest := {
      url := p.baseUrl.getD "" ++ "/organization/results/artifact/" ++
             p.artifactId.getD "" ++ "/submission/"
      bearerToken := p.token.getD ""
      artifacts := jsParseInt (p.artifactId.getD "")
      content := content
      status := "submitted" }
    match outcome with
    | .networkError => (false, some req)
    | .httpStatus code => (decide (200 ≤ code ∧ code ≤ 299), some req)

/-! ### Spec-side definitions

Definitions following the specification's words, for the claims that
compare the code against a spec-described shape. -/

/-- The submission endpoint as the spec writes it:
base_url/organization/results/artifact/submission/artifact_id/submission/ -/
def specSubmissionUrl (baseUrl artifactId : String) : String :=
  baseUrl ++ "/organization/results/artifact/submission/" ++ artifactId ++ "/submission/"

mutual

/-- The Key Normalizer contract as the spec words it: a structurally
identical value in which every plain-object key has its first character
lower-cased, recursively; primitives, null and dates pass through. -/
def specLowerKeys : JsVal → JsVal
  | .arr xs => .arr (specLowerKeysList xs)
  | .obj fs => .obj (specLowerKeysFields fs)
  | v => v

/-- Pointwise key-lowering of an object's fields. -/
def specLowerKeysFields : List (String × JsVal) → List (String × JsVal)
  | [] => []
  | (k, v) :: rest => (lowerFirst k, specLowerKeys v) :: specLowerKeysFields rest

/-- Pointwise recursion through an array. -/
def specLowerKeysList : List JsVal → List JsVal
  | [] => []
  | v :: rest => specLowerKeys v :: specLowerKeysList rest

end

mutual

/-- No two keys of any object in the value collide once their first
character is lower-cased. -/
def noKeyCollisions : JsVal → Bool
  | .arr xs => noKeyCollisionsList xs
  | .obj fs =>
    decide ((fs.map (fun kv => lowerFirst kv.1)).Nodup) && noKeyCollisionsFields fs
  | _ => true

/-- The collision check over an object's field values. -/
def noKeyCollisionsFields : List (String × JsVal) → Bool
  | [] => true
  | (_, v) :: rest => noKeyCollisions v && noKeyCollisionsFields rest

/-- The collision check over an array's elements. -/
def noKeyCollisionsList : List JsVal → Bool
  | [] => true
  | v :: rest => noKeyCollisions v && noKeyCollisionsList rest

end

/-- A canonical QuizOption object: exactly a string text and a boolean
isCorrect. -/
def canonicalOption : JsVal → Bool
  | .obj [("text", .str _), ("isCorrect", .bool _)] => true
  | _ => false

/-- A canonical QuizQuestion object: non-empty question text, one of the
two enum types, and a non-empty options array of canonical options. -/
def canonicalQuestion : JsVal → Bool
  | .obj [("question", .str t), ("type", .str ty), ("options", .arr opts)] =>
    (jsTrim t ≠ "") && (ty = "multiple-choice" || ty = "true-false") &&
    (!opts.isEmpty) && opts.all canonicalOption
  | _ => false

/-- An uploaded record the upload coercer must drop: not an object, or no
usable name (name/city/title), or no usable coordinates
(coords/coordinates). -/
def uploadRecordInvalid (item : JsVal) : Bool :=
  !item.isObjectLike ||
  (match (item.getField "name").jsOr ((item.getField "city").jsOr (item.getField "title")) with
   | .str name => jsTrim name = ""
   | _ => true) ||
  (processCoords ((item.getField "coords").jsOr (item.getField "coordinates"))).isNone

/-- A persisted-overlay record the overlay coercer must drop: not an
object, or no usable coords, or no usable name. -/
def overlayRecordInvalid (item : JsVal) : Bool :=
  !item.isObjectLike ||
  (processCoords (item.getField "coords")).isNone ||
  (match item.getField "name" with
   | .str name => jsTrim name = ""
   | _ => true)

/-! ### Claims -/

/-- C6: an uploaded record's questions entry
{text:"Q",type:"true_false",answer:"True"} produces exactly one
QuizQuestion with options [{True, correct}, {False, incorrect}], and the
builder-format true_false parser yields the same two-option result for
the answers "True", "TRUE" and "true". -/
theorem C6_true_false_parsing :
    transformUploadedQuiz
      (.arr [.obj [("text", .str "Q"), ("type", .str "true_false"), ("answer", .str "True")]]) =
      some (.arr [mkQuestionObj (.str "Q") "true-false"
        [mkOptionObj (.str "True") true, mkOptionObj (.str "False") false]]) ∧
    transformQuestion (.obj [("text", .str "Q"), ("type", .str "true_false"), ("answer", .str "True")]) =
      .ok (some (mkQuestionObj (.str "Q") "true-false"
        [mkOptionObj (.str "True") true, mkOptionObj (.str "False") false])) ∧
    transformQuestion (.obj [("text", .str "Q"), ("type", .str "true_false"), ("answer", .str "TRUE")]) =
      .ok (some (mkQuestionObj (.str "Q") "true-false"
        [mkOptionObj (.str "True") true, mkOptionObj (.str "False") false])) ∧
    transformQuestion (.obj [("text", .str "Q"), ("type", .str "true_false"), ("answer", .str "true")]) =
      .ok (some (mkQuestionObj (.str "Q") "true-false"
        [mkOptionObj (.str "True") true, mkOptionObj (.str "False") false])) :=
  ⟨rfl, rfl, rfl, rfl⟩

/-- C1 counterexample: the remote-artifact coercer does not exclude a
record that is missing its title and coordinates; the empty record comes
back as a landmark (with undefined name), so the claim that all four
coercers exclude such records fails. -/
theorem C1_remote_coercer_keeps_invalid_record :
    (transformBuilderDataToLandmarks [.obj []]).map (fun ls => ls.map Landmark.name) =
      .ok [.undefined] :=
  rfl

/-- C5 counterexample: with all session parameters present, the request
is POSTed to .../organization/results/artifact/7/submission/, which is
not the .../organization/results/artifact/submission/7/submission/ URL
the claim states. -/
theorem C5_url_differs_from_claim :
    ((submitQuizResults
        { token := some "tok", artifactId := some "7",
          baseUrl := some "https://api.example.com" }
        "{}" (.httpStatus 200)).2.map SubmitRequest.url) =
      some "https://api.example.com/organization/results/artifact/7/submission/" ∧
    "https://api.example.com/organization/results/artifact/7/submission/" ≠
      specSubmissionUrl "https://api.example.com" "7" := by
  constructor
  · rfl
  · decide

/-- C8 counterexample: two keys that collide after first-character
lowering do not both survive; one key/value pair of the input is lost, so
the normalizer is not structure-preserving on every JSON value. -/
theorem C8_colliding_keys_lose_a_pair :
    normalizeKeys (.obj [("Question", .num 1), ("question", .num 2)]) =
      .obj [("question", .num 2)] :=
  rfl

/-- C10 counterexample: for the answer " true" (whose lowercasing is
neither "true" nor "false"), the upload transformation marks the True
option correct, not the False option as the claim states, because it
trims the answer before comparing. -/
theorem C10_untrimmed_answer_refutes_claim :
    jsToLowerCase " true" ≠ "true" ∧ jsToLowerCase " true" ≠ "false" ∧
    transformUploadedQuestion
      (.obj [("text", .str "Q"), ("type", .str "true_false"), ("answer", .str " true")]) =
      some (mkQuestionObj (.str "Q") "true-false"
        [mkOptionObj (.str "True") true, mkOptionObj (.str "False") false]) := by
  refine ⟨by decide, by decide, rfl⟩

/-! ### Helper lemmas on the coercers -/

/-- The upload coercer drops every record without a usable name or usable
coordinates (and drops non-objects). -/
theorem uploadCoerceRecord_drops_invalid (now index : ℕ) (item : JsVal)
    (h : uploadRecordInvalid item = true) :
    uploadCoerceRecord now index item = none := by
  unfold uploadRecordInvalid at h
  unfold uploadCoerceRecord
  by_cases ho : item.isObjectLike
  · simp only [ho, Bool.not_true, Bool.false_or, Bool.or_eq_true] at h
    simp only [ho, Bool.not_true, Bool.false_eq_true, if_false]
    rcases hnv : (item.getField "name").jsOr ((item.getField "city").jsOr (item.getField "title")) with
      _ | _ | b | q | _ | _ | name | _ | xs | fs <;> simp only [hnv] at h ⊢ <;> try rfl
    · -- string name: either blank after trimming, or the coordinates fail
      rcases h with h | h
      · simp only [decide_eq_true_eq] at h
        simp [h]
      · by_cases hb : jsTrim name = ""
        · simp [hb]
        · simp only [Option.isNone_iff_eq_none] at h
          simp [hb, h]
  · simp [ho]

/-- The persisted-overlay coercer drops every record without a usable
name or usable coordinates (and drops non-objects). -/
theorem sanitizeCustomLandmark_drops_invalid (now : ℕ) (item : JsVal)
    (h : overlayRecordInvalid item = true) :
    sanitizeCustomLandmark now item = none := by
  unfold overlayRecordInvalid at h
  unfold sanitizeCustomLandmark
  by_cases ho : item.isObjectLike
  · simp only [ho, Bool.not_true, Bool.false_or, Bool.or_eq_true] at h
    simp only [ho, Bool.not_true, Bool.false_eq_true, if_false]
    rcases h with h | h
    · simp only [Option.isNone_iff_eq_none] at h
      simp [h]
    · rcases hc : processCoords (item.getField "coords") with _ | ⟨lat, lon⟩
      · rfl
      · rcases hnv : item.getField "name" with
          _ | _ | b | q | _ | _ | name | _ | xs | fs <;> simp only [hnv] at h ⊢ <;> try rfl
        simp only [decide_eq_true_eq] at h
        simp [h]
  · simp [ho]

/-- A dataset row with invalid coordinates is skipped without a thrown
exception, whatever else it holds, provided it is an object at all. -/
theorem datasetCoerceRow_skips_bad_coords (index : ℕ) (item : JsVal)
    (ho : item.isObjectLike = true)
    (hc : processCoords (item.getField "coordinates") = none) :
    datasetCoerceRow index item = .ok none := by
  unfold datasetCoerceRow
  cases item <;> simp_all [JsVal.getFieldE, JsVal.isObjectLike]

/-- C1 (amended): the upload and persisted-overlay coercers exclude
every record missing a usable name or usable coordinates, and the
dataset coercer excludes every object record with missing or non-finite
coordinates; those exclusions never raise (the coercers are total /
return .ok).  The remote-artifact coercer, however, performs no such
validation (see the counterexample), and the dataset coercer throws on a
coordinate-valid record whose city field is not a string, as the final
conjunct shows on a name-less record. -/
theorem C1_invalid_records_excluded :
    (∀ (now index : ℕ) (item : JsVal), uploadRecordInvalid item = true →
      uploadCoerceRecord now index item = none) ∧
    (∀ (now : ℕ) (item : JsVal), overlayRecordInvalid item = true →
      sanitizeCustomLandmark now item = none) ∧
    (∀ (index : ℕ) (item : JsVal), item.isObjectLike = true →
      processCoords (item.getField "coordinates") = none →
      datasetCoerceRow index item = .ok none) ∧
    datasetCoerceRow 0 (.obj [("coordinates", .arr [.num 1, .num 2])]) = .error () :=
  ⟨uploadCoerceRecord_drops_invalid,
   sanitizeCustomLandmark_drops_invalid,
   datasetCoerceRow_skips_bad_coords,
   rfl⟩

/-- Witness for C1 at concrete records: an empty object has no usable
name, so the upload and overlay coercers drop it, and an object whose
coordinates hold a null entry is skipped by the dataset coercer. -/
theorem C1_invalid_records_excluded_witness :
    uploadCoerceRecord 7 0 (.obj []) = none ∧
    sanitizeCustomLandmark 7 (.obj []) = none ∧
    datasetCoerceRow 0 (.obj [("city", .str "Petra"),
      ("coordinates", .arr [.num 30, .null])]) = .ok none :=
  ⟨C1_invalid_records_excluded.1 7 0 (.obj []) rfl,
   C1_invalid_records_excluded.2.1 7 (.obj []) rfl,
   C1_invalid_records_excluded.2.2.1 0 (.obj [("city", .str "Petra"),
     ("coordinates", .arr [.num 30, .null])]) rfl rfl⟩

/-- The landmark used to exercise the quiz gate in concrete states. -/
def demoGatedLandmark : Landmark := {
  id := .num 1
  name := .str "L1"
  title := .str "L1"
  description := .str ""
  imageUrl := .str ""
  coords := .arr [.num 1, .num 2]
  iconType := "monument"
  videoUrl := .null
  audioUrl := .null
  quiz := some (.arr [mkQuestionObj (.str "Q") "true-false"
    [mkOptionObj (.str "True") true, mkOptionObj (.str "False") false]])
  block_navigation := .bool true }

/-- A state in which the quiz modal is open (gate captured at index 1 of
a two-landmark tour) and no visual transition is in flight. -/
def gateOpenState : NavState := {
  landmarks := [INTRO_LANDMARK, demoGatedLandmark]
  activeIndex := 1
  sidebarIndex := 1
  transitioning := false
  quizGate := some (1, 2)
  pending := none }

/-- C2 counterexample: with the QuizGate open and no transition in
flight, the Previous intent is not rejected: it starts a backward
transition and changes the active index from 1 to 0, so not every
navigation intent issued while the QuizGate is open is a no-op. -/
theorem C2_prev_not_rejected_while_gate_open :
    gateOpenState.quizGate.isSome = true ∧
    gateOpenState.transitioning = false ∧
    gateOpenState.activeIndex = 1 ∧
    (navStep gateOpenState .prev).activeIndex = 0 ∧
    (navStep gateOpenState .prev).transitioning = true :=
  ⟨rfl, rfl, rfl, rfl, rfl⟩

/-- C2 (amended): from Viewing(i) whose landmark has a non-empty quiz
and truthy blockNavigation, Next opens the QuizGate without changing
either index; reissuing Next while the gate is open is a no-op; only the
quiz-completion signal advances the active index to (i+1) mod len; and
every navigation intent issued while Transitioning is rejected
unchanged.  (Previous and JumpTo are guarded only by Transitioning, not
by the open QuizGate — see the counterexample.) -/
theorem C2_quiz_gate_blocks_next (s : NavState) (i : ℕ) (cur : Landmark)
    (h1 : s.transitioning = false) (h2 : s.landmarks.length ≠ 0)
    (h3 : s.sidebarIndex = i) (h4 : s.landmarks[i]? = some cur)
    (h5 : gated cur = true) :
    navStep s .next = { s with quizGate := some (i, s.landmarks.length) } ∧
    (navStep s .next).activeIndex = s.activeIndex ∧
    (navStep s .next).sidebarIndex = s.sidebarIndex ∧
    navStep (navStep s .next) .next = navStep s .next ∧
    (navStep (navStep s .next) .completeQuiz).activeIndex = (i + 1) % s.landmarks.length ∧
    (∀ t : NavState, t.transitioning = true →
      navStep t .next = t ∧ navStep t .prev = t ∧ ∀ x, navStep t (.jumpTo x) = t) := by
  have hstep : navStep s .next = { s with quizGate := some (i, s.landmarks.length) } := by
    unfold navStep
    simp [h1, h2, h3, h4, h5]
  refine ⟨hstep, by rw [hstep], by rw [hstep], ?_, ?_, ?_⟩
  · rw [hstep]
    unfold navStep
    simp [h1, h2, h3, h4, h5]
  · rw [hstep]
    unfold navStep startTransition
    simp
  · intro t ht
    refine ⟨?_, ?_, fun x => ?_⟩ <;> (unfold navStep; simp [ht])

/-- Witness for C2: in a concrete gated Viewing(1) state, Next opens the
gate, leaves both indices at 1, is idempotent, and completion advances
the active index to 0 (wrapping a 2-entry tour). -/
theorem C2_quiz_gate_blocks_next_witness :
    (navStep { landmarks := [INTRO_LANDMARK, demoGatedLandmark], activeIndex := 1,
               sidebarIndex := 1, transitioning := false, quizGate := none,
               pending := none : NavState } .next).quizGate = some (1, 2) ∧
    (navStep { landmarks := [INTRO_LANDMARK, demoGatedLandmark], activeIndex := 1,
               sidebarIndex := 1, transitioning := false, quizGate := none,
               pending := none : NavState } .next).activeIndex = 1 := by
  have h := C2_quiz_gate_blocks_next
    { landmarks := [INTRO_LANDMARK, demoGatedLandmark], activeIndex := 1,
      sidebarIndex := 1, transitioning := false, quizGate := none, pending := none }
    1 demoGatedLandmark rfl (by decide) rfl rfl rfl
  exact ⟨by rw [h.1]; rfl, h.2.1⟩

/-- C3: an upload whose records are all invalid (no usable name and/or
no usable coordinates) is rejected with the user-visible message and
leaves the whole tour state — landmarks, active index, sidebar index and
all — exactly as it was. -/
theorem C3_all_invalid_upload_preserves_state (items : List JsVal) (now : ℕ) (s : NavState)
    (h : ∀ item ∈ items, uploadRecordInvalid item = true) :
    handleFileChange (.arr items) now s = (s, some uploadRejectMessage) := by
  unfold handleFileChange
  have hz : ∀ start, filterMapIdx (uploadCoerceRecord now) start items = [] := by
    induction items with
    | nil => intro start; rfl
    | cons x rest ih =>
      intro start
      unfold filterMapIdx
      rw [uploadCoerceRecord_drops_invalid now start x (h x (List.mem_cons_self x rest))]
      exact ih (fun item hm => h item (List.mem_cons_of_mem x hm)) (start + 1)
  simp [hz 0]

/-- Witness for C3: uploading two records — a non-object and a record
with a name but no coordinates — changes nothing about a concrete state
and raises the rejection message. -/
theorem C3_all_invalid_upload_preserves_state_witness :
    handleFileChange (.arr [.num 3, .obj [("name", .str "X")]]) 42 gateOpenState =
      (gateOpenState, some uploadRejectMessage) := by
  exact C3_all_invalid_upload_preserves_state [.num 3, .obj [("name", .str "X")]] 42
    gateOpenState (by intro item hm; fin_cases hm <;> rfl)

/-- C4: every tour the system produces or mutates keeps the synthetic
intro landmark (id 0, no quiz, no gating) at index 0: the loader yields
it first whichever source wins (including the built-in fallback, for any
fallback content), an accepted upload rebuilds the tour intro-first and a
rejected one changes nothing, the custom-landmark append only adds at the
end, and no navigation step touches the landmarks list at all. -/
theorem C4_intro_always_first :
    (∀ (inp : LoadInputs) (fallbackRest : List Landmark),
      (loadData inp fallbackRest).head? = some INTRO_LANDMARK) ∧
    (∀ (v : JsVal) (now : ℕ) (s : NavState),
      s.landmarks.head? = some INTRO_LANDMARK →
      (handleFileChange v now s).1.landmarks.head? = some INTRO_LANDMARK) ∧
    (∀ (now : ℕ) (mc : Option (ℚ × ℚ)) (data : Landmark) (s : NavState),
      s.landmarks.head? = some INTRO_LANDMARK →
      (handleSaveLandmark now mc data s).landmarks.head? = some INTRO_LANDMARK) ∧
    (∀ (s : NavState) (e : NavIntent), (navStep s e).landmarks = s.landmarks) ∧
    INTRO_LANDMARK.id = .num 0 ∧ INTRO_LANDMARK.quiz = none ∧
    INTRO_LANDMARK.block_navigation = .bool false ∧ gated INTRO_LANDMARK = false := by
  refine ⟨?_, ?_, ?_, ?_, rfl, rfl, rfl, rfl⟩
  · intro inp fallbackRest
    have hbase : ∃ rest, baseTour inp.dataset fallbackRest = INTRO_LANDMARK :: rest := by
      unfold baseTour
      split
      · split
        · split <;> exact ⟨_, rfl⟩
        · exact ⟨_, rfl⟩
      · exact ⟨_, rfl⟩
    obtain ⟨rest, hrest⟩ := hbase
    unfold loadData
    rcases hrem : remoteTour inp.remote with _ | tour
    · simp only
      split
      · rw [hrest]; simp
      · rw [hrest]; rfl
    · have hintro : ∃ tl, tour = INTRO_LANDMARK :: tl := by
        unfold remoteTour at hrem
        rcases hr : inp.remote with _ | v
        · rw [hr] at hrem; exact absurd hrem (by simp)
        · rw [hr] at hrem
          cases v with
          | arr items =>
            simp only at hrem
            by_cases hlen : 0 < items.length
            · rw [if_pos hlen] at hrem
              rcases ht : transformBuilderDataToLandmarks items with e | ls
              · rw [ht] at hrem; exact absurd hrem (by simp)
              · rw [ht] at hrem
                simp only [Option.some.injEq] at hrem
                exact ⟨ls, hrem.symm⟩
            · rw [if_neg hlen] at hrem; exact absurd hrem (by simp)
          | null => exact absurd hrem (by simp [remoteTour])
          | undefined => exact absurd hrem (by simp [remoteTour])
          | bool b => exact absurd hrem (by simp [remoteTour])
          | num q => exact absurd hrem (by simp [remoteTour])
          | nan => exact absurd hrem (by simp [remoteTour])
          | inf => exact absurd hrem (by simp [remoteTour])
          | str a => exact absurd hrem (by simp [remoteTour])
          | date => exact absurd hrem (by simp [remoteTour])
          | obj fs => exact absurd hrem (by simp [remoteTour])
      obtain ⟨tl, htl⟩ := hintro
      simp [htl]
  · intro v now s h
    unfold handleFileChange
    cases v <;> simp only <;> try exact h
    split
    · exact h
    · rfl
  · intro now mc data s h
    unfold handleSaveLandmark
    rcases mc with _ | ⟨lat, lon⟩
    · exact h
    · cases hl : s.landmarks with
      | nil => rw [hl] at h; exact absurd h (by simp)
      | cons a rest =>
        rw [hl] at h
        simp only [List.head?_cons, Option.some.injEq] at h
        simp [h]
  · intro s e
    cases e <;> unfold navStep startTransition <;> (repeat' split) <;> rfl

/-- Witness for C4 at concrete inputs: a loader run with every source
absent still yields an intro-headed tour, a rejected upload of a single
invalid record preserves an intro-headed state, and appending a custom
landmark keeps the intro in front. -/
theorem C4_intro_always_first_witness :
    (loadData { remote := none, dataset := none, overlay := none, now := 0 } []).head? =
      some INTRO_LANDMARK ∧
    (handleFileChange (.arr [.null]) 0
      { landmarks := [INTRO_LANDMARK], activeIndex := 0, sidebarIndex := 0,
        transitioning := false, quizGate := none, pending := none }).1.landmarks.head? =
      some INTRO_LANDMARK ∧
    (handleSaveLandmark 99 (some (3, 4)) demoGatedLandmark
      { landmarks := [INTRO_LANDMARK], activeIndex := 0, sidebarIndex := 0,
        transitioning := false, quizGate := none, pending := none }).landmarks.head? =
      some INTRO_LANDMARK :=
  ⟨C4_intro_always_first.1 { remote := none, dataset := none, overlay := none, now := 0 } [],
   C4_intro_always_first.2.1 (.arr [.null]) 0
     { landmarks := [INTRO_LANDMARK], activeIndex := 0, sidebarIndex := 0,
       transitioning := false, quizGate := none, pending := none } rfl,
   C4_intro_always_first.2.2.1 99 (some (3, 4)) demoGatedLandmark
     { landmarks := [INTRO_LANDMARK], activeIndex := 0, sidebarIndex := 0,
       transitioning := false, quizGate := none, pending := none } rfl⟩

/-- C7: in a non-empty tour, from an ungated Viewing(i) (both indices at
i, no transition in flight), Next moves the active index to (i+1) mod
len and, once the two transition timers fire, settles the sidebar there
with the transition flag cleared — wrapping to the intro from the last
index; Previous moves to (i-1+len) mod len, wrapping from the intro to
the last index. -/
theorem C7_navigation_wraps (s : NavState) (i : ℕ)
    (h1 : s.transitioning = false) (h2 : s.landmarks.length ≠ 0)
    (h3 : s.sidebarIndex = i)
    (h4 : ∀ cur, s.landmarks[i]? = some cur → gated cur = false) :
    (navStep s .next).activeIndex = (i + 1) % s.landmarks.length ∧
    (navStep (navStep (navStep s .next) .timerMid) .timerEnd).sidebarIndex =
      (i + 1) % s.landmarks.length ∧
    (navStep (navStep (navStep s .next) .timerMid) .timerEnd).transitioning = false ∧
    (navStep s .prev).activeIndex = (i + s.landmarks.length - 1) % s.landmarks.length ∧
    (navStep (navStep (navStep s .prev) .timerMid) .timerEnd).sidebarIndex =
      (i + s.landmarks.length - 1) % s.landmarks.length ∧
    (i = s.landmarks.length - 1 → (navStep s .next).activeIndex = 0) ∧
    (i = 0 → (navStep s .prev).activeIndex = s.landmarks.length - 1) := by
  have hnext : navStep s .next = startTransition s i s.landmarks.length := by
    unfold navStep
    rcases hcur : s.landmarks[i]? with _ | cur
    · simp [h1, h2, h3, hcur]
    · simp [h1, h2, h3, hcur, h4 cur hcur]
  have hprev : navStep s .prev =
      { s with transitioning := true,
               activeIndex := (i + s.landmarks.length - 1) % s.landmarks.length,
               pending := some ((i + s.landmarks.length - 1) % s.landmarks.length, false) } := by
    unfold navStep
    simp [h1, h2, h3]
  refine ⟨?_, ?_, ?_, ?_, ?_, ?_, ?_⟩
  · rw [hnext]; rfl
  · rw [hnext]; rfl
  · rw [hnext]; rfl
  · rw [hprev]
  · rw [hprev]; rfl
  · intro hi
    rw [hnext]
    unfold startTransition
    simp only [hi]
    have : s.landmarks.length - 1 + 1 = s.landmarks.length :=
      Nat.succ_pred_eq_of_pos (Nat.pos_of_ne_zero h2)
    simp [this]
  · intro hi
    rw [hprev]
    simp only [hi, Nat.zero_add]
    exact Nat.mod_eq_of_lt (Nat.sub_lt (Nat.pos_of_ne_zero h2) Nat.one_pos)

/-- Witness for C7 in a concrete two-entry tour at the last index: Next
wraps the active index to the intro and settles the sidebar there;
Previous from the intro wraps to the last index. -/
theorem C7_navigation_wraps_witness :
    (navStep { landmarks := [INTRO_LANDMARK, demoGatedLandmark], activeIndex := 0,
               sidebarIndex := 0, transitioning := false, quizGate := none,
               pending := none : NavState } .prev).activeIndex = 1 := by
  have h := C7_navigation_wraps
    { landmarks := [INTRO_LANDMARK, demoGatedLandmark], activeIndex := 0,
      sidebarIndex := 0, transitioning := false, quizGate := none, pending := none }
    0 rfl (by decide) rfl
    (by intro cur hcur
        simp only [List.getElem?_cons_zero, Option.some.injEq] at hcur
        rw [← hcur]
        rfl)
  exact h.2.2.2.2.2.2 rfl

/-- C5 (amended): with all three session parameters present,
submitQuizResults POSTs to
base_url/organization/results/artifact/artifact_id/submission/ (not the
.../artifact/submission/artifact_id/submission/ path the claim gives)
with the bearer token and body fields artifacts = parseInt(artifact_id),
content = the JSON-encoded summary, status = "submitted"; it returns
false on any non-2xx status and on a network error, and returns false
without issuing a request when a session parameter is missing — never
throwing in any of these cases. -/
theorem C5_submission_request_and_soft_failure (p : URLParams) (content : String)
    (h1 : optStrTruthy p.token = true) (h2 : optStrTruthy p.artifactId = true)
    (h3 : optStrTruthy p.baseUrl = true) :
    (∀ outcome, (submitQuizResults p content outcome).2 = some {
        url := p.baseUrl.getD "" ++ "/organization/results/artifact/" ++
               p.artifactId.getD "" ++ "/submission/"
        bearerToken := p.token.getD ""
        artifacts := jsParseInt (p.artifactId.getD "")
        content := content
        status := "submitted" }) ∧
    (∀ code, code < 200 ∨ 299 < code →
      (submitQuizResults p content (.httpStatus code)).1 = false) ∧
    (submitQuizResults p content .networkError).1 = false ∧
    (∀ (q : URLParams) (c : String) (outcome : FetchOutcome),
      (optStrTruthy q.token && optStrTruthy q.artifactId && optStrTruthy q.baseUrl) = false →
      submitQuizResults q c outcome = (false, none)) := by
  refine ⟨?_, ?_, ?_, ?_⟩
  · intro outcome
    unfold submitQuizResults
    simp only [h1, h2, h3, Bool.and_true, Bool.not_true, Bool.false_eq_true, if_false]
    cases outcome <;> rfl
  · intro code hcode
    unfold submitQuizResults
    simp only [h1, h2, h3, Bool.and_true, Bool.not_true, Bool.false_eq_true, if_false]
    simp only [decide_eq_false_iff_not]
    omega
  · unfold submitQuizResults
    simp [h1, h2, h3]
  · intro q c outcome hq
    unfold submitQuizResults
    simp [hq]

/-- Witness for C5 at concrete parameters: the request for artifact 7 is
built against the code's URL, a 404 yields false, and a parameter-less
call yields false with no request. -/
theorem C5_submission_request_and_soft_failure_witness :
    (submitQuizResults
      { token := some "tok", artifactId := some "7", baseUrl := some "https://h" }
      "{}" (.httpStatus 404)).2 = some {
        url := "https://h/organization/results/artifact/7/submission/"
        bearerToken := "tok"
        artifacts := some 7
        content := "{}"
        status := "submitted" } ∧
    (submitQuizResults
      { token := some "tok", artifactId := some "7", baseUrl := some "https://h" }
      "{}" (.httpStatus 404)).1 = false ∧
    submitQuizResults { token := none, artifactId := some "7", baseUrl := some "https://h" }
      "{}" (.httpStatus 200) = (false, none) := by
  have h := C5_submission_request_and_soft_failure
    { token := some "tok", artifactId := some "7", baseUrl := some "https://h" }
    "{}" (by decide) (by decide) (by decide)
  refine ⟨?_, h.2.1 404 (by omega), h.2.2.2
    { token := none, artifactId := some "7", baseUrl := some "https://h" }
    "{}" (.httpStatus 200) rfl⟩
  rw [h.1 (.httpStatus 404)]
  rfl

/-- C10 (amended): for every true_false question whose answer is neither
"true" nor "false" after lowercasing, whether or not it is trimmed first,
the builder-format parser emits a two-option question with no correct
option, while the upload transformation emits one whose "False" option is
correct (it trims the answer before comparing, the builder parser does
not — hence the trimming condition the counterexample forces); the two
parsers therefore disagree on every such input. -/
theorem C10_true_false_parsers_disagree (text answer : String)
    (h1 : jsToLowerCase answer ≠ "true") (h2 : jsToLowerCase answer ≠ "false")
    (h3 : jsToLowerCase (jsTrim answer) ≠ "true")
    (h4 : jsToLowerCase (jsTrim answer) ≠ "false") :
    transformQuestion
      (.obj [("text", .str text), ("type", .str "true_false"), ("answer", .str answer)]) =
      .ok (some (mkQuestionObj (.str text) "true-false"
        [mkOptionObj (.str "True") false, mkOptionObj (.str "False") false])) ∧
    transformUploadedQuestion
      (.obj [("text", .str text), ("type", .str "true_false"), ("answer", .str answer)]) =
      some (mkQuestionObj (.str text) "true-false"
        [mkOptionObj (.str "True") false, mkOptionObj (.str "False") true]) ∧
    (mkQuestionObj (.str text) "true-false"
        [mkOptionObj (.str "True") false, mkOptionObj (.str "False") false] ≠
     mkQuestionObj (.str text) "true-false"
        [mkOptionObj (.str "True") false, mkOptionObj (.str "False") true]) := by
  refine ⟨?_, ?_, by simp [mkQuestionObj, mkOptionObj]⟩
  · unfold transformQuestion
    simp only [JsVal.getFieldE, JsVal.getField, List.lookup]
    simp [JsVal.jsStrictEq, h1, h2]
  · unfold transformUploadedQuestion
    simp only [JsVal.getFieldE, JsVal.getField, List.lookup]
    simp [jsToString, JsVal.truthy, h3]
    exact ⟨by decide, by decide⟩

/-- Witness for C10 at the answer "maybe": zero correct options from the
builder parser, a correct "False" from the upload transformation. -/
theorem C10_true_false_parsers_disagree_witness :
    transformQuestion
      (.obj [("text", .str "Q"), ("type", .str "true_false"), ("answer", .str "maybe")]) =
      .ok (some (mkQuestionObj (.str "Q") "true-false"
        [mkOptionObj (.str "True") false, mkOptionObj (.str "False") false])) ∧
    transformUploadedQuestion
      (.obj [("text", .str "Q"), ("type", .str "true_false"), ("answer", .str "maybe")]) =
      some (mkQuestionObj (.str "Q") "true-false"
        [mkOptionObj (.str "True") false, mkOptionObj (.str "False") true]) := by
  have h := C10_true_false_parsers_disagree "Q" "maybe"
    (by decide) (by decide) (by decide) (by decide)
  exact ⟨h.1, h.2.1⟩

/-! ### Key-normalizer lemmas -/

/-- Assigning a fresh key appends it. -/
theorem setKey_append (acc : List (String × JsVal)) (k : String) (v : JsVal)
    (h : ∀ p ∈ acc, p.1 ≠ k) : setKey acc k v = acc ++ [(k, v)] := by
  induction acc with
  | nil => rfl
  | cons p rest ih =>
    obtain ⟨k', v'⟩ := p
    unfold setKey
    rw [if_neg (h (k', v') (List.mem_cons_self _ _))]
    rw [ih (fun q hq => h q (List.mem_cons_of_mem _ hq))]
    rfl

/-- The reduce of normalizeKeys builds the pointwise-lowered field list
whenever the lowered keys of the remaining fields are pairwise distinct
and disjoint from the accumulator's keys. -/
theorem normalizeKeysFields_eq (fs : List (String × JsVal)) :
    ∀ acc : List (String × JsVal),
    (fs.map (fun kv => lowerFirst kv.1)).Nodup →
    (∀ p ∈ fs, normalizeKeys p.2 = specLowerKeys p.2) →
    (∀ p ∈ acc, ∀ q ∈ fs, p.1 ≠ lowerFirst q.1) →
    normalizeKeysFields fs acc = acc ++ specLowerKeysFields fs := by
  induction fs with
  | nil => intro acc _ _ _; simp [normalizeKeysFields, specLowerKeysFields]
  | cons kv rest ih =>
    intro acc hnodup hvals hdisj
    obtain ⟨k, v⟩ := kv
    simp only [List.map_cons, List.nodup_cons] at hnodup
    unfold normalizeKeysFields
    rw [setKey_append acc (lowerFirst k) (normalizeKeys v)
      (fun p hp => hdisj p hp (k, v) (List.mem_cons_self _ _))]
    rw [ih (acc ++ [(lowerFirst k, normalizeKeys v)]) hnodup.2
      (fun p hp => hvals p (List.mem_cons_of_mem _ hp))
      (by
        intro p hp q hq
        rcases List.mem_append.mp hp with hacc | hone
        · exact hdisj p hacc q (List.mem_cons_of_mem _ hq)
        · simp only [List.mem_singleton] at hone
          rw [hone]
          intro hcontra
          simp only at hcontra
          exact hnodup.1
            (hcontra ▸ List.mem_map_of_mem (fun kv => lowerFirst kv.1) hq))]
    rw [hvals (k, v) (List.mem_cons_self _ _)]
    simp [specLowerKeysFields]

mutual

/-- Without key collisions, normalizeKeys is exactly the structural
key-lowering map of the spec. -/
theorem normalizeKeys_eq_specLowerKeys :
    ∀ (v : JsVal), noKeyCollisions v = true → normalizeKeys v = specLowerKeys v
  | .null, _ => rfl
  | .undefined, _ => rfl
  | .bool _, _ => rfl
  | .num _, _ => rfl
  | .nan, _ => rfl
  | .inf, _ => rfl
  | .str _, _ => rfl
  | .date, _ => rfl
  | .arr xs, h => by
    unfold normalizeKeys specLowerKeys
    rw [normalizeKeysList_eq_spec xs h]
  | .obj fs, h => by
    unfold noKeyCollisions at h
    rw [Bool.and_eq_true] at h
    unfold normalizeKeys specLowerKeys
    rw [normalizeKeysFields_eq fs [] (of_decide_eq_true h.1)
      (normalizeKeysFields_vals fs h.2) (by simp)]
    simp

/-- Array case of the previous lemma. -/
theorem normalizeKeysList_eq_spec :
    ∀ (xs : List JsVal), noKeyCollisionsList xs = true →
      normalizeKeysList xs = specLowerKeysList xs
  | [], _ => rfl
  | x :: rest, h => by
    unfold noKeyCollisionsList at h
    rw [Bool.and_eq_true] at h
    unfold normalizeKeysList specLowerKeysList
    rw [normalizeKeys_eq_specLowerKeys x h.1, normalizeKeysList_eq_spec rest h.2]

/-- Field-value case of the previous lemma. -/
theorem normalizeKeysFields_vals :
    ∀ (fs : List (String × JsVal)), noKeyCollisionsFields fs = true →
      ∀ p ∈ fs, normalizeKeys p.2 = specLowerKeys p.2
  | [], _, p, hp => absurd hp (List.not_mem_nil p)
  | (k, v) :: rest, h, p, hp => by
    unfold noKeyCollisionsFields at h
    rw [Bool.and_eq_true] at h
    rcases List.mem_cons.mp hp with heq | hmem
    · rw [heq]
      exact normalizeKeys_eq_specLowerKeys v h.1
    · exact normalizeKeysFields_vals rest h.2 p hmem

end

/-- C8 (amended): on every JSON value in which no two keys of any object
collide once their first character is lower-cased, the Key Normalizer
returns exactly the structurally identical value with every plain-object
key first-character-lower-cased (recursively through arrays and objects,
primitives and dates untouched); with colliding keys a pair is lost, as
the counterexample shows. -/
theorem C8_normalizer_is_structural_lowering (x : JsVal)
    (h : noKeyCollisions x = true) : normalizeKeys x = specLowerKeys x :=
  normalizeKeys_eq_specLowerKeys x h

/-- Witness for C8 on a concrete nested value with upper-cased keys at
two depths. -/
theorem C8_normalizer_is_structural_lowering_witness :
    noKeyCollisions (.obj [("Question", .str "q"),
      ("Options", .arr [.obj [("IsCorrect", .bool true)]])]) = true ∧
    normalizeKeys (.obj [("Question", .str "q"),
      ("Options", .arr [.obj [("IsCorrect", .bool true)]])]) =
    specLowerKeys (.obj [("Question", .str "q"),
      ("Options", .arr [.obj [("IsCorrect", .bool true)]])]) :=
  ⟨rfl, C8_normalizer_is_structural_lowering _ rfl⟩

/-! ### Canonical-quiz lemmas -/

/-- A canonical option is untouched by the key normalizer. -/
theorem canonicalOption_norm (o : JsVal) (h : canonicalOption o = true) :
    normalizeKeys o = o := by
  unfold canonicalOption at h
  split at h
  · rfl
  · exact absurd h (by simp)

/-- A canonical option passes the structural option validation. -/
theorem canonicalOption_valid (o : JsVal) (h : canonicalOption o = true) :
    isValidQuizOption o = true := by
  unfold canonicalOption at h
  split at h
  · rfl
  · exact absurd h (by simp)

/-- Canonical options are pointwise untouched by the normalizer. -/
theorem canonicalOptions_norm (opts : List JsVal)
    (h : opts.all canonicalOption = true) : normalizeKeysList opts = opts := by
  induction opts with
  | nil => rfl
  | cons o rest ih =>
    rw [List.all_cons, Bool.and_eq_true] at h
    unfold normalizeKeysList
    rw [canonicalOption_norm o h.1, ih h.2]

/-- A canonical question is untouched by the key normalizer. -/
theorem canonicalQuestion_norm (q : JsVal) (h : canonicalQuestion q = true) :
    normalizeKeys q = q := by
  unfold canonicalQuestion at h
  split at h
  · rename_i t ty opts
    simp only [Bool.and_eq_true] at h
    show JsVal.obj [("question", .str t), ("type", .str ty),
      ("options", .arr (normalizeKeysList opts))] = _
    rw [canonicalOptions_norm opts h.2]
  · exact absurd h (by simp)

/-- A canonical question passes the structural question validation. -/
theorem canonicalQuestion_valid (q : JsVal) (h : canonicalQuestion q = true) :
    isValidQuizQuestion q = true := by
  unfold canonicalQuestion at h
  split at h
  · rename_i t ty opts
    simp only [Bool.and_eq_true, Bool.or_eq_true, decide_eq_true_eq] at h
    obtain ⟨⟨⟨ht, hty⟩, _⟩, hopts⟩ := h
    show (true && decide (jsTrim t ≠ "") &&
      ((ty == "multiple-choice") || (ty == "true-false")) &&
      opts.all isValidQuizOption) = true
    have hop : opts.all isValidQuizOption = true := by
      rw [List.all_eq_true] at hopts ⊢
      exact fun o ho => canonicalOption_valid o (hopts o ho)
    rcases hty with hty | hty <;> simp [ht, hty, hop]
  · exact absurd h (by simp)

/-- Canonical questions are pointwise untouched by the normalizer. -/
theorem canonicalQuestions_norm (qs : List JsVal)
    (h : qs.all canonicalQuestion = true) : normalizeKeysList qs = qs := by
  induction qs with
  | nil => rfl
  | cons q rest ih =>
    rw [List.all_cons, Bool.and_eq_true] at h
    unfold normalizeKeysList
    rw [canonicalQuestion_norm q h.1, ih h.2]

/-- C9: the legacy-format quiz parser is the identity (up to the some
wrapper) on every non-empty list of canonical QuizQuestion values:
parseAndValidateQuiz returns the input array unchanged. -/
theorem C9_legacy_parser_idempotent_on_canonical (qs : List JsVal)
    (h1 : qs ≠ []) (h2 : qs.all canonicalQuestion = true) :
    parseAndValidateQuiz (.arr qs) = some (.arr qs) := by
  have hnorm : normalizeKeys (.arr qs) = .arr qs := by
    unfold normalizeKeys
    rw [canonicalQuestions_norm qs h2]
  have hvalid : isValidQuizQuestionArray (.arr qs) = true := by
    unfold isValidQuizQuestionArray
    simp only
    rw [List.all_eq_true] at h2 ⊢
    exact fun q hq => canonicalQuestion_valid q (h2 q hq)
  have hlen : decide (0 < arrLength (.arr qs)) = true := by
    simp [arrLength, List.length_pos, h1]
  show (if isValidQuizQuestionArray (normalizeKeys (.arr qs)) &&
          decide (0 < arrLength (normalizeKeys (.arr qs)))
        then some (normalizeKeys (.arr qs)) else none) = some (.arr qs)
  rw [hnorm, hvalid, hlen]
  simp

/-- Witness for C9: a concrete one-question canonical quiz comes back
unchanged. -/
theorem C9_legacy_parser_idempotent_on_canonical_witness :
    parseAndValidateQuiz (.arr [mkQuestionObj (.str "q") "true-false"
      [mkOptionObj (.str "True") true, mkOptionObj (.str "False") false]]) =
    some (.arr [mkQuestionObj (.str "q") "true-false"
      [mkOptionObj (.str "True") true, mkOptionObj (.str "False") false]]) :=
  C9_legacy_parser_idempotent_on_canonical _ (by simp) rfl

end JourneyWeaver
